import Mathlib

/-!
Verification of the resilient GitHub-metrics collector
(`github_metrics.py`): a shallow embedding of the retry loop
`_make_request`, of the traffic fetcher `get_traffic_data`, of the
orchestrator `collect_all_metrics`, and of the file exporter
`export_data`, together with theorems settling the specified
properties.

Modelling conventions:
* One HTTP attempt (`requests.request`) either yields a `Response`
  (status, the presence of the `X-RateLimit-Remaining` header, the
  integer value of `X-RateLimit-Reset`, and a body) or raises a
  network-level `RequestException`, modelled by `Attempt.netErr` with
  an opaque cause identifier.
* The environment of a call is a function `env : Nat → Attempt`
  giving the outcome of the attempt made when the retry counter has a
  given value (the loop increments the counter by exactly one per
  iteration, so the counter indexes attempts), and `nowAt : Nat → Int`
  gives the value of `time.time()` read during that attempt.
* `response.raise_for_status()` raises for 400 ≤ status < 600, and the
  `HTTPError` it raises is a subclass of `RequestException`, so it is
  caught by the `except RequestException` clause of the loop.  The
  embedding reflects this: an error-status response takes the same
  backoff-and-retry branch as a network failure, and only surfaces as
  `ReqError.httpError` once the retry budget is spent.
* Sleeps are recorded in order in a trace (`List Int` of durations in
  seconds); the result is the returned response or the raised error.
-/

namespace GithubMetrics

/-- An HTTP response as seen by `_make_request`: status code, whether
the `X-RateLimit-Remaining` header is present, the integer value of
the `X-RateLimit-Reset` header, and the body. -/
structure Response where
  status : Nat
  rateLimitRemainingPresent : Bool
  rateLimitReset : Int
  body : String
  deriving DecidableEq

/-- Outcome of one `requests.request` call: a response, or a
network-level `RequestException` (connection refused, timeout, DNS
failure, ...) with an opaque cause identifier. -/
inductive Attempt where
  | ok (r : Response)
  | netErr (e : Nat)
  deriving DecidableEq

/-- The errors `_make_request` can raise: `RateLimitError(reset_time)`,
an `HTTPError` from `raise_for_status` (carrying status and body), a
network-level `RequestException`, or the final generic
`Exception("Maximum retries exceeded")`. -/
inductive ReqError where
  | rateLimit (resetTime : Int)
  | httpError (status : Nat) (body : String)
  | network (e : Nat)
  | maxRetriesExceeded
  deriving DecidableEq

/-- The configuration of `GitHubMetricsCollector` relevant to the
retry loop: `max_retries` (default 3) and `retry_delay` (default 5),
both Python ints. -/
structure Collector where
  maxRetries : Int
  retryDelay : Int
  deriving DecidableEq

/-- The body of `_make_request`'s `while retries <= self.max_retries`
loop, entered with the current value of the `retries` counter.  It
returns the trace of sleeps performed from this iteration on, together
with the returned response or raised error.

Branches, in the source's order:
* rate-limit handling: status 403 with the remaining header present;
  with positive wait and retries remaining, sleep
  `min(wait + 1, 3600)` and continue with `retries + 1`, else raise
  `RateLimitError(reset_time)`;
* `raise_for_status`: an error status (400–599) raises `HTTPError`,
  which the `except RequestException` clause catches: with retries
  remaining, sleep `retry_delay * 2 ** retries` and continue, else
  re-raise it;
* otherwise the response is returned;
* a network failure takes the same `except RequestException` path;
* if the loop condition fails, the fallback
  `Exception("Maximum retries exceeded")` is raised. -/
def make_request_loop (c : Collector) (env : Nat → Attempt) (nowAt : Nat → Int)
    (retries : Nat) : List Int × Except ReqError Response :=
  if (retries : Int) ≤ c.maxRetries then
    match env retries with
    | Attempt.ok r =>
      if r.status = 403 ∧ r.rateLimitRemainingPresent = true then
        if h2 : 0 < r.rateLimitReset - nowAt retries ∧ (retries : Int) < c.maxRetries then
          (min (r.rateLimitReset - nowAt retries + 1) 3600 ::
              (make_request_loop c env nowAt (retries + 1)).1,
           (make_request_loop c env nowAt (retries + 1)).2)
        else
          ([], Except.error (ReqError.rateLimit r.rateLimitReset))
      else if 400 ≤ r.status ∧ r.status < 600 then
        if h3 : (retries : Int) < c.maxRetries then
          (c.retryDelay * 2 ^ retries :: (make_request_loop c env nowAt (retries + 1)).1,
           (make_request_loop c env nowAt (retries + 1)).2)
        else
          ([], Except.error (ReqError.httpError r.status r.body))
      else
        ([], Except.ok r)
    | Attempt.netErr e =>
      if h4 : (retries : Int) < c.maxRetries then
        (c.retryDelay * 2 ^ retries :: (make_request_loop c env nowAt (retries + 1)).1,
         (make_request_loop c env nowAt (retries + 1)).2)
      else
        ([], Except.error (ReqError.network e))
  else
    ([], Except.error ReqError.maxRetriesExceeded)
termination_by (c.maxRetries + 1 - (retries : Int)).toNat
decreasing_by
  all_goals omega

/-- `_make_request`: run the retry loop with the counter initialised
to 0. -/
def make_request (c : Collector) (env : Nat → Attempt) (nowAt : Nat → Int) :
    List Int × Except ReqError Response :=
  make_request_loop c env nowAt 0

/-! Branch equations of the loop. -/

/-- Loop condition false: the fallback raise. -/
theorem ml_exit (c : Collector) (env : Nat → Attempt) (nowAt : Nat → Int) (retries : Nat)
    (h : ¬ (retries : Int) ≤ c.maxRetries) :
    make_request_loop c env nowAt retries = ([], Except.error ReqError.maxRetriesExceeded) := by
  conv_lhs => rw [make_request_loop.eq_def]
  rw [if_neg h]

/-- Rate-limited response, positive wait, retries remaining: sleep
`min (wait + 1) 3600` and continue. -/
theorem ml_rl_retry (c : Collector) (env : Nat → Attempt) (nowAt : Nat → Int) (retries : Nat)
    (r : Response) (hin : (retries : Int) ≤ c.maxRetries) (henv : env retries = Attempt.ok r)
    (hrl : r.status = 403 ∧ r.rateLimitRemainingPresent = true)
    (hw : 0 < r.rateLimitReset - nowAt retries ∧ (retries : Int) < c.maxRetries) :
    make_request_loop c env nowAt retries =
      (min (r.rateLimitReset - nowAt retries + 1) 3600 ::
          (make_request_loop c env nowAt (retries + 1)).1,
       (make_request_loop c env nowAt (retries + 1)).2) := by
  conv_lhs => rw [make_request_loop.eq_def]
  rw [if_pos hin, henv]
  simp only [if_pos hrl, dif_pos hw]

/-- Rate-limited response, wait non-positive or budget spent: raise
`RateLimitError(reset_time)`. -/
theorem ml_rl_fail (c : Collector) (env : Nat → Attempt) (nowAt : Nat → Int) (retries : Nat)
    (r : Response) (hin : (retries : Int) ≤ c.maxRetries) (henv : env retries = Attempt.ok r)
    (hrl : r.status = 403 ∧ r.rateLimitRemainingPresent = true)
    (hw : ¬ (0 < r.rateLimitReset - nowAt retries ∧ (retries : Int) < c.maxRetries)) :
    make_request_loop c env nowAt retries =
      ([], Except.error (ReqError.rateLimit r.rateLimitReset)) := by
  conv_lhs => rw [make_request_loop.eq_def]
  rw [if_pos hin, henv]
  simp only [if_pos hrl, dif_neg hw]

/-- Error-status response outside the rate-limit case, retries
remaining: `raise_for_status`'s `HTTPError` is caught by the
`except RequestException` clause, so sleep `retry_delay * 2 ^ retries`
and continue. -/
theorem ml_http_retry (c : Collector) (env : Nat → Attempt) (nowAt : Nat → Int) (retries : Nat)
    (r : Response) (hin : (retries : Int) ≤ c.maxRetries) (henv : env retries = Attempt.ok r)
    (hrl : ¬ (r.status = 403 ∧ r.rateLimitRemainingPresent = true))
    (herr : 400 ≤ r.status ∧ r.status < 600)
    (hlt : (retries : Int) < c.maxRetries) :
    make_request_loop c env nowAt retries =
      (c.retryDelay * 2 ^ retries :: (make_request_loop c env nowAt (retries + 1)).1,
       (make_request_loop c env nowAt (retries + 1)).2) := by
  conv_lhs => rw [make_request_loop.eq_def]
  rw [if_pos hin, henv]
  simp only [if_neg hrl, if_pos herr, dif_pos hlt]

/-- Error-status response outside the rate-limit case, budget spent:
the `HTTPError` is re-raised. -/
theorem ml_http_fail (c : Collector) (env : Nat → Attempt) (nowAt : Nat → Int) (retries : Nat)
    (r : Response) (hin : (retries : Int) ≤ c.maxRetries) (henv : env retries = Attempt.ok r)
    (hrl : ¬ (r.status = 403 ∧ r.rateLimitRemainingPresent = true))
    (herr : 400 ≤ r.status ∧ r.status < 600)
    (hge : ¬ (retries : Int) < c.maxRetries) :
    make_request_loop c env nowAt retries =
      ([], Except.error (ReqError.httpError r.status r.body)) := by
  conv_lhs => rw [make_request_loop.eq_def]
  rw [if_pos hin, henv]
  simp only [if_neg hrl, if_pos herr, dif_neg hge]

/-- Non-error status outside the rate-limit case: the response is
returned. -/
theorem ml_return (c : Collector) (env : Nat → Attempt) (nowAt : Nat → Int) (retries : Nat)
    (r : Response) (hin : (retries : Int) ≤ c.maxRetries) (henv : env retries = Attempt.ok r)
    (hrl : ¬ (r.status = 403 ∧ r.rateLimitRemainingPresent = true))
    (herr : ¬ (400 ≤ r.status ∧ r.status < 600)) :
    make_request_loop c env nowAt retries = ([], Except.ok r) := by
  conv_lhs => rw [make_request_loop.eq_def]
  rw [if_pos hin, henv]
  simp only [if_neg hrl, if_neg herr]

/-- Network failure, retries remaining: sleep
`retry_delay * 2 ^ retries` and continue. -/
theorem ml_net_retry (c : Collector) (env : Nat → Attempt) (nowAt : Nat → Int) (retries : Nat)
    (e : Nat) (hin : (retries : Int) ≤ c.maxRetries) (henv : env retries = Attempt.netErr e)
    (hlt : (retries : Int) < c.maxRetries) :
    make_request_loop c env nowAt retries =
      (c.retryDelay * 2 ^ retries :: (make_request_loop c env nowAt (retries + 1)).1,
       (make_request_loop c env nowAt (retries + 1)).2) := by
  conv_lhs => rw [make_request_loop.eq_def]
  rw [if_pos hin, henv]
  simp only [dif_pos hlt]

/-- Network failure, budget spent: the underlying error is re-raised
unchanged. -/
theorem ml_net_fail (c : Collector) (env : Nat → Attempt) (nowAt : Nat → Int) (retries : Nat)
    (e : Nat) (hin : (retries : Int) ≤ c.maxRetries) (henv : env retries = Attempt.netErr e)
    (hge : ¬ (retries : Int) < c.maxRetries) :
    make_request_loop c env nowAt retries = ([], Except.error (ReqError.network e)) := by
  conv_lhs => rw [make_request_loop.eq_def]
  rw [if_pos hin, henv]
  simp only [dif_neg hge]

/-! The traffic fetcher `get_traffic_data`. -/

/-- The JSON payload of a traffic endpoint as used by
`get_traffic_data`: the optional fields read with
`.get('count', 0)` and `.get('uniques', 0)`. -/
structure TrafficJson where
  count : Option Int
  uniques : Option Int
  deriving DecidableEq

/-- The dictionary returned by `get_traffic_data`. -/
structure TrafficData where
  total_views : Int
  unique_visitors : Int
  total_clones : Int
  unique_cloners : Int
  deriving DecidableEq

/-- The substituted default `{'count': 0, 'uniques': 0}`. -/
def zeroTrafficJson : TrafficJson := ⟨some 0, some 0⟩

/-- One guarded sub-resource call of `get_traffic_data`: the
`try ... except HTTPError` block.  Only `ReqError.httpError` is an
`HTTPError`; `RateLimitError`, network `RequestException`s and the
generic fallback exception are not caught and propagate. -/
def guardHttpError (call : Except ReqError TrafficJson) : Except ReqError TrafficJson :=
  match call with
  | Except.ok d => Except.ok d
  | Except.error (ReqError.httpError _ _) => Except.ok zeroTrafficJson
  | Except.error e => Except.error e

/-- `get_traffic_data`, over the outcomes of the views call and the
clones call (each an `_make_request(url).json()` outcome).  The views
call is guarded first; a propagating error from it surfaces before the
clones call is made. -/
def get_traffic_data (views clones : Except ReqError TrafficJson) :
    Except ReqError TrafficData :=
  match guardHttpError views with
  | Except.error e => Except.error e
  | Except.ok views_data =>
    match guardHttpError clones with
    | Except.error e => Except.error e
    | Except.ok clones_data =>
        Except.ok ⟨views_data.count.getD 0, views_data.uniques.getD 0,
                   clones_data.count.getD 0, clones_data.uniques.getD 0⟩

/-! The orchestrator `collect_all_metrics`. -/

/-- The dictionary returned by `get_repo_basic_metrics`. -/
structure BasicMetrics where
  stars : Int
  forks : Int
  watchers : Int
  open_issues : Int
  last_updated : String
  deriving DecidableEq

/-- One element of the list returned by `get_fork_details`. -/
structure ForkDetail where
  owner : String
  created_at : String
  last_updated : String
  stars : Int
  deriving DecidableEq

/-- The combined record built by `collect_all_metrics`, with its keys
in the source's order. -/
structure MetricsRecord where
  timestamp : String
  repository : String
  stars : Int
  forks : Int
  watchers : Int
  open_issues : Int
  last_updated : String
  total_views : Int
  unique_visitors : Int
  total_clones : Int
  unique_cloners : Int
  fork_count : Nat
  fork_details : List ForkDetail
  deriving DecidableEq

/-- The remote outcomes seen by one `collect_all_metrics` run: the
result of `get_repo_basic_metrics`, of the two traffic sub-calls, and
of `get_fork_details`. -/
structure CollectEnv where
  basic : Except ReqError BasicMetrics
  views : Except ReqError TrafficJson
  clones : Except ReqError TrafficJson
  forks : Except ReqError (List ForkDetail)

/-- The three fetchers `collect_all_metrics` sequences, for recording
the order in which they are invoked. -/
inductive FetchStep where
  | basicStep
  | trafficStep
  | forksStep
  deriving DecidableEq

/-- `collect_all_metrics`: fetch basic metrics, then traffic, then
fork details; the first exception aborts the sequence and is re-raised
(the `except` clause logs and re-raises), so no record is produced on
failure.  On success the record carries `datetime.now()` (the
`timestamp` argument), the repository identity, all fetched fields,
and `fork_count = len(fork_data)`.  The first component records which
fetchers ran, in order. -/
def collect_all_metrics (env : CollectEnv) (owner repo timestamp : String) :
    List FetchStep × Except ReqError MetricsRecord :=
  match env.basic with
  | Except.error e => ([FetchStep.basicStep], Except.error e)
  | Except.ok bm =>
    match get_traffic_data env.views env.clones with
    | Except.error e => ([FetchStep.basicStep, FetchStep.trafficStep], Except.error e)
    | Except.ok td =>
      match env.forks with
      | Except.error e =>
          ([FetchStep.basicStep, FetchStep.trafficStep, FetchStep.forksStep], Except.error e)
      | Except.ok fd =>
          ([FetchStep.basicStep, FetchStep.trafficStep, FetchStep.forksStep],
           Except.ok ⟨timestamp, owner ++ "/" ++ repo,
                      bm.stars, bm.forks, bm.watchers, bm.open_issues, bm.last_updated,
                      td.total_views, td.unique_visitors, td.total_clones, td.unique_cloners,
                      fd.length, fd⟩)

/-- Erase the only field of a `MetricsRecord` that depends on the
clock, for comparing two runs. -/
def clearTimestamp (r : MetricsRecord) : MetricsRecord :=
  { r with timestamp := "" }

/-! The exporter `export_data`, over an explicit heap of dictionaries
so that the Python aliasing of `data` and `data.copy()` is modelled:
`export_data = data.copy()` allocates a fresh dictionary, and the
assignment `export_data['fork_details'] = str(...)` mutates the copy
in the heap. -/

/-- A value stored in a metrics dictionary. -/
inductive Value where
  | str (s : String)
  | int (n : Int)
  | natV (n : Nat)
  | forkList (l : List ForkDetail)
  deriving DecidableEq

/-- A Python dict with string keys, as an ordered association list. -/
abbrev Dict : Type := List (String × Value)

/-- `d.get(k, dfl)`. -/
def dictGet (d : Dict) (k : String) (dfl : Value) : Value :=
  match List.find? (fun p => p.1 = k) d with
  | some p => p.2
  | none => dfl

/-- `d[k] = v`: replace the value at an existing key, else append. -/
def dictSet (d : Dict) (k : String) (v : Value) : Dict :=
  if List.any d (fun p => p.1 = k) then
    List.map (fun p => if p.1 = k then (k, v) else p) d
  else d ++ [(k, v)]

/-- The heap of live dictionaries; a reference is an index. -/
abbrev Heap : Type := List Dict

/-- Dereference (a dangling reference reads the empty dict). -/
def heapRead (h : Heap) (ref : Nat) : Dict :=
  List.getD h ref []

/-- Mutate the dict a reference points to. -/
def heapWrite (h : Heap) (ref : Nat) (d : Dict) : Heap :=
  List.set h ref d

/-- Allocate a fresh dict, returning the new heap and its reference. -/
def heapAlloc (h : Heap) (d : Dict) : Heap × Nat :=
  (h ++ [d], List.length h)

/-- A rendering for `str(...)` applied to one fork-detail dict. -/
def forkDetailStr (f : ForkDetail) : String :=
  f.owner ++ ":" ++ f.created_at ++ ":" ++ f.last_updated ++ ":" ++ toString f.stars

/-- A rendering for Python `str(...)` applied to a stored value, used
by the CSV flattening of `fork_details`. -/
def valueStr (v : Value) : String :=
  match v with
  | Value.str s => s
  | Value.int n => toString n
  | Value.natV n => toString n
  | Value.forkList l => "[" ++ String.intercalate ", " (List.map forkDetailStr l) ++ "]"

/-- What `export_data` produces: a CSV row built from the flattened
copy, or a JSON payload built from the original dict. -/
inductive ExportResult where
  | csvFile (row : Dict)
  | jsonFile (payload : Dict)
  deriving DecidableEq

/-- The `ValueError(f"Unsupported export format: {format}")` raise. -/
inductive ExportError where
  | unsupportedFormat (format : String)
  deriving DecidableEq

/-- `export_data(data, ..., format)`, heap-passing: copy the input
dict, flatten `fork_details` to a string on the copy when the format
is CSV, then write the CSV row from the copy or the JSON payload from
the original `data`, or raise for an unsupported format. -/
def export_data (h : Heap) (dataRef : Nat) (format : String) :
    Heap × Except ExportError ExportResult :=
  let alloc := heapAlloc h (heapRead h dataRef)
  let h1 := alloc.1
  let copyRef := alloc.2
  let h2 :=
    if format.toLower = "csv" then
      heapWrite h1 copyRef
        (dictSet (heapRead h1 copyRef) "fork_details"
          (Value.str (valueStr (dictGet (heapRead h1 copyRef) "fork_details" (Value.forkList [])))))
    else h1
  if format.toLower = "csv" then
    (h2, Except.ok (ExportResult.csvFile (heapRead h2 copyRef)))
  else if format.toLower = "json" then
    (h2, Except.ok (ExportResult.jsonFile (heapRead h2 dataRef)))
  else
    (h2, Except.error (ExportError.unsupportedFormat format))

/-! Claim theorems. -/

/-- C7: for every response with a 2xx status, `_make_request` returns
that response immediately on the current iteration, performing zero
sleeps for that attempt (the trace from this iteration on is empty).
`make_request` itself is this loop entered at counter 0. -/
theorem make_request_success_immediate (c : Collector) (env : Nat → Attempt)
    (nowAt : Nat → Int) (retries : Nat) (r : Response)
    (hin : (retries : Int) ≤ c.maxRetries) (henv : env retries = Attempt.ok r)
    (h2xx : 200 ≤ r.status ∧ r.status < 300) :
    make_request_loop c env nowAt retries = ([], Except.ok r) := by
  refine ml_return c env nowAt retries r hin henv ?_ ?_
  · rintro ⟨h403, -⟩
    omega
  · rintro ⟨h400, -⟩
    omega

/-- Witness for C7 at a concrete 200 response. -/
theorem make_request_success_immediate_witness :
    make_request_loop ⟨3, 5⟩ (fun _ => Attempt.ok ⟨200, false, 0, "ok"⟩) (fun _ => 0) 0 =
      ([], Except.ok ⟨200, false, 0, "ok"⟩) :=
  make_request_success_immediate ⟨3, 5⟩ _ _ 0 _ (by decide) rfl (by decide)

/-- C4: for a rate-limited response (403 with the remaining header)
with positive wait and retries remaining, `_make_request` sleeps
exactly `min (wait + 1) 3600` seconds, increments the retry counter
and reissues the request (the run continues as the loop at
`retries + 1`); the exponential-backoff factor does not appear on this
path. -/
theorem make_request_rate_limit_wait_retry (c : Collector) (env : Nat → Attempt)
    (nowAt : Nat → Int) (retries : Nat) (r : Response)
    (henv : env retries = Attempt.ok r) (h403 : r.status = 403)
    (hdr : r.rateLimitRemainingPresent = true)
    (hwait : 0 < r.rateLimitReset - nowAt retries)
    (hlt : (retries : Int) < c.maxRetries) :
    make_request_loop c env nowAt retries =
      (min (r.rateLimitReset - nowAt retries + 1) 3600 ::
          (make_request_loop c env nowAt (retries + 1)).1,
       (make_request_loop c env nowAt (retries + 1)).2) :=
  ml_rl_retry c env nowAt retries r (le_of_lt hlt) henv ⟨h403, hdr⟩ ⟨hwait, hlt⟩

/-- Witness for C4: reset 100, clock 50, so one sleep of
`min (100 - 50 + 1) 3600 = 51` seconds, then the loop at counter 1. -/
theorem make_request_rate_limit_wait_retry_witness :
    make_request_loop ⟨3, 5⟩ (fun _ => Attempt.ok ⟨403, true, 100, ""⟩) (fun _ => 50) 0 =
      ((51 : Int) ::
          (make_request_loop ⟨3, 5⟩ (fun _ => Attempt.ok ⟨403, true, 100, ""⟩) (fun _ => 50) 1).1,
       (make_request_loop ⟨3, 5⟩ (fun _ => Attempt.ok ⟨403, true, 100, ""⟩) (fun _ => 50) 1).2) := by
  have h := make_request_rate_limit_wait_retry ⟨3, 5⟩
    (fun _ => Attempt.ok ⟨403, true, 100, ""⟩) (fun _ => 50) 0 ⟨403, true, 100, ""⟩
    rfl rfl rfl (by decide) (by decide)
  exact h.trans (by norm_num [min_def])

/-- C5: for a rate-limited response with the retry budget exhausted or
a non-positive wait, `_make_request` raises
`RateLimitError(reset_time)` with the reset timestamp from the
response header and performs no further sleep. -/
theorem make_request_rate_limit_exhausted (c : Collector) (env : Nat → Attempt)
    (nowAt : Nat → Int) (retries : Nat) (r : Response)
    (hin : (retries : Int) ≤ c.maxRetries)
    (henv : env retries = Attempt.ok r) (h403 : r.status = 403)
    (hdr : r.rateLimitRemainingPresent = true)
    (hfail : r.rateLimitReset - nowAt retries ≤ 0 ∨ c.maxRetries ≤ (retries : Int)) :
    make_request_loop c env nowAt retries =
      ([], Except.error (ReqError.rateLimit r.rateLimitReset)) :=
  ml_rl_fail c env nowAt retries r hin henv ⟨h403, hdr⟩ (by
    rintro ⟨h1, h2⟩
    rcases hfail with h | h <;> omega)

/-- Witness for C5: `max_retries = 0`, so the budget is exhausted on
the first rate-limited response even though the wait is positive. -/
theorem make_request_rate_limit_exhausted_witness :
    make_request_loop ⟨0, 5⟩ (fun _ => Attempt.ok ⟨403, true, 100, ""⟩) (fun _ => 50) 0 =
      ([], Except.error (ReqError.rateLimit 100)) :=
  make_request_rate_limit_exhausted ⟨0, 5⟩ _ _ 0 _ (by decide) rfl rfl rfl (Or.inr (by decide))

/-- C1 (evidence of the code bug): `HTTPError` is a subclass of
`RequestException`, so the `HTTPError` that `raise_for_status` raises
for a plain 404 is caught by the `except RequestException` clause and
retried with exponential backoff.  With the default configuration
(`max_retries = 3`, `retry_delay = 5`) and a server that answers 404
with body `"Not Found"` on every attempt, `_make_request` sleeps 5,
10 and 20 seconds before finally re-raising the `HTTPError` — it does
not fail immediately, contradicting the claim (the error it
eventually raises does carry status and body). -/
theorem http_error_retried_not_immediate :
    make_request ⟨3, 5⟩ (fun _ => Attempt.ok ⟨404, false, 0, "Not Found"⟩) (fun _ => 0) =
      ([5, 10, 20], Except.error (ReqError.httpError 404 "Not Found")) := by
  have h0 := ml_http_retry ⟨3, 5⟩ (fun _ => Attempt.ok ⟨404, false, 0, "Not Found"⟩)
    (fun _ => 0) 0 ⟨404, false, 0, "Not Found"⟩ (by decide) rfl (by decide) (by decide) (by decide)
  have h1 := ml_http_retry ⟨3, 5⟩ (fun _ => Attempt.ok ⟨404, false, 0, "Not Found"⟩)
    (fun _ => 0) 1 ⟨404, false, 0, "Not Found"⟩ (by decide) rfl (by decide) (by decide) (by decide)
  have h2 := ml_http_retry ⟨3, 5⟩ (fun _ => Attempt.ok ⟨404, false, 0, "Not Found"⟩)
    (fun _ => 0) 2 ⟨404, false, 0, "Not Found"⟩ (by decide) rfl (by decide) (by decide) (by decide)
  have h3 := ml_http_fail ⟨3, 5⟩ (fun _ => Attempt.ok ⟨404, false, 0, "Not Found"⟩)
    (fun _ => 0) 3 ⟨404, false, 0, "Not Found"⟩ (by decide) rfl (by decide) (by decide) (by decide)
  unfold make_request
  norm_num at h0 h1 h2 h3
  rw [h0, h1, h2, h3]

/-- Splitting off the head of an exponential-backoff sleep trace. -/
theorem range_succ_map_shift (d : Int) (a k : Nat) :
    List.map (fun i => d * 2 ^ (a + i)) (List.range (k + 1))
      = d * 2 ^ a :: List.map (fun i => d * 2 ^ (a + 1 + i)) (List.range k) := by
  rw [List.range_succ_eq_map, List.map_cons, List.map_map]
  congr 1
  apply List.map_congr_left
  intro i _
  show d * 2 ^ (a + Nat.succ i) = d * 2 ^ (a + 1 + i)
  have h : a + Nat.succ i = a + 1 + i := by omega
  rw [h]

/-- Under an environment where every attempt fails at network level,
the loop entered with `k` continuations left sleeps the backoff
sequence `retry_delay * 2 ^ (retries + i)` for `i < k` and re-raises
the error of the final attempt. -/
theorem loop_net_all (c : Collector) (env : Nat → Attempt) (e : Nat → Nat) (nowAt : Nat → Int)
    (henv : ∀ i, env i = Attempt.netErr (e i)) :
    ∀ k retries, c.maxRetries.toNat - retries = k → retries ≤ c.maxRetries.toNat →
      0 ≤ c.maxRetries →
      make_request_loop c env nowAt retries =
        (List.map (fun i => c.retryDelay * 2 ^ (retries + i)) (List.range k),
         Except.error (ReqError.network (e c.maxRetries.toNat))) := by
  intro k
  induction k with
  | zero =>
    intro retries hk hle hm
    have hret : retries = c.maxRetries.toNat := by omega
    have hin : (retries : Int) ≤ c.maxRetries := by omega
    have hge : ¬ (retries : Int) < c.maxRetries := by omega
    rw [ml_net_fail c env nowAt retries (e retries) hin (henv retries) hge, hret]
    rfl
  | succ k ih =>
    intro retries hk hle hm
    have hin : (retries : Int) ≤ c.maxRetries := by omega
    have hlt : (retries : Int) < c.maxRetries := by omega
    rw [ml_net_retry c env nowAt retries (e retries) hin (henv retries) hlt]
    rw [ih (retries + 1) (by omega) (by omega) hm]
    rw [range_succ_map_shift]

/-- C3: under any all-network-failure environment, the `n`th retry
sleep performed by `_make_request` is `retry_delay * 2 ^ (n - 1)`
(the sleep trace is exactly `[d * 2 ^ 0, ..., d * 2 ^ (m - 1)]` for
`m = max_retries`), and once the `max_retries` retries are exhausted
the network error of the final attempt is re-raised unchanged (the
bare `raise` re-raises the caught `RequestException`). -/
theorem make_request_network_backoff (c : Collector) (env : Nat → Attempt) (e : Nat → Nat)
    (nowAt : Nat → Int) (hm : 0 ≤ c.maxRetries)
    (henv : ∀ i, env i = Attempt.netErr (e i)) :
    make_request c env nowAt =
      (List.map (fun i => c.retryDelay * 2 ^ i) (List.range c.maxRetries.toNat),
       Except.error (ReqError.network (e c.maxRetries.toNat))) ∧
    ∀ n, 1 ≤ n → n ≤ c.maxRetries.toNat →
      List.getD (make_request c env nowAt).1 (n - 1) 0 = c.retryDelay * 2 ^ (n - 1) := by
  have hmain : make_request c env nowAt =
      (List.map (fun i => c.retryDelay * 2 ^ i) (List.range c.maxRetries.toNat),
       Except.error (ReqError.network (e c.maxRetries.toNat))) := by
    unfold make_request
    rw [loop_net_all c env e nowAt henv c.maxRetries.toNat 0 (by omega) (by omega) hm]
    simp
  refine ⟨hmain, ?_⟩
  intro n h1 h2
  rw [hmain]
  have hlen : n - 1 < (List.map (fun i => c.retryDelay * 2 ^ i)
      (List.range c.maxRetries.toNat)).length := by
    simp
    omega
  rw [List.getD_eq_getElem _ _ hlen]
  simp

/-- Witness for C3: `max_retries = 2`, `retry_delay = 5`, attempts
failing with causes 0, 1, 2: sleeps 5 and 10, then the final error. -/
theorem make_request_network_backoff_witness :
    make_request ⟨2, 5⟩ (fun i => Attempt.netErr i) (fun _ => 0) =
      ([5, 10], Except.error (ReqError.network 2)) := by
  have h := (make_request_network_backoff ⟨2, 5⟩ (fun i => Attempt.netErr i) (fun i => i)
    (fun _ => 0) (by decide) (fun i => rfl)).1
  exact h.trans (by rfl)

/-- From any in-budget counter value, the loop returns or raises one
of the classified errors: its result is never the defensive fallback
`Exception("Maximum retries exceeded")`. -/
theorem loop_no_fallback (c : Collector) (env : Nat → Attempt) (nowAt : Nat → Int) :
    ∀ k (retries : Nat), (c.maxRetries + 1 - (retries : Int)).toNat = k →
      (retries : Int) ≤ c.maxRetries →
      (make_request_loop c env nowAt retries).2 ≠ Except.error ReqError.maxRetriesExceeded := by
  intro k
  induction k with
  | zero =>
    intro retries hk hle
    exfalso
    omega
  | succ k ih =>
    intro retries hk hle
    cases henv : env retries with
    | ok r =>
      by_cases hrl : r.status = 403 ∧ r.rateLimitRemainingPresent = true
      · by_cases hw : 0 < r.rateLimitReset - nowAt retries ∧ (retries : Int) < c.maxRetries
        · rw [ml_rl_retry c env nowAt retries r hle henv hrl hw]
          exact ih (retries + 1) (by omega) (by omega)
        · rw [ml_rl_fail c env nowAt retries r hle henv hrl hw]
          simp
      · by_cases herr : 400 ≤ r.status ∧ r.status < 600
        · by_cases hlt : (retries : Int) < c.maxRetries
          · rw [ml_http_retry c env nowAt retries r hle henv hrl herr hlt]
            exact ih (retries + 1) (by omega) (by omega)
          · rw [ml_http_fail c env nowAt retries r hle henv hrl herr hlt]
            simp
        · rw [ml_return c env nowAt retries r hle henv hrl herr]
          simp
    | netErr e =>
      by_cases hlt : (retries : Int) < c.maxRetries
      · rw [ml_net_retry c env nowAt retries e hle henv hlt]
        exact ih (retries + 1) (by omega) (by omega)
      · rw [ml_net_fail c env nowAt retries e hle henv hlt]
        simp

/-- C9: with `max_retries ≥ 0`, every iteration of the loop either
returns the response, raises a classified error, or continues with an
incremented counter that is still within the loop bound, so the loop
never exits through its condition and the final generic
`Exception("Maximum retries exceeded")` raise is unreachable: the
result of `_make_request` is never that fallback error, for any
environment. -/
theorem make_request_fallback_unreachable (c : Collector) (env : Nat → Attempt)
    (nowAt : Nat → Int) (hm : 0 ≤ c.maxRetries) :
    (make_request c env nowAt).2 ≠ Except.error ReqError.maxRetriesExceeded := by
  unfold make_request
  exact loop_no_fallback c env nowAt _ 0 rfl (by omega)

/-- Witness for C9 at the default configuration and an environment of
constant network failures. -/
theorem make_request_fallback_unreachable_witness :
    (make_request ⟨3, 5⟩ (fun _ => Attempt.netErr 0) (fun _ => 0)).2 ≠
      Except.error ReqError.maxRetriesExceeded :=
  make_request_fallback_unreachable ⟨3, 5⟩ _ _ (by decide)

/-- C2: `get_traffic_data` substitutes the zero default
`{count: 0, uniques: 0}` for exactly the sub-resource whose call
raised `HTTPError`, independently of the other sub-resource's outcome,
while a network-level error or a `RateLimitError` raised by either
call propagates out uncaught (the views error first, since the views
call is made first). -/
theorem get_traffic_data_guard_spec :
    (∀ (s : Nat) (b : String) (cd : TrafficJson),
      get_traffic_data (Except.error (ReqError.httpError s b)) (Except.ok cd) =
        Except.ok ⟨0, 0, cd.count.getD 0, cd.uniques.getD 0⟩) ∧
    (∀ (vd : TrafficJson) (s : Nat) (b : String),
      get_traffic_data (Except.ok vd) (Except.error (ReqError.httpError s b)) =
        Except.ok ⟨vd.count.getD 0, vd.uniques.getD 0, 0, 0⟩) ∧
    (∀ (s1 : Nat) (b1 : String) (s2 : Nat) (b2 : String),
      get_traffic_data (Except.error (ReqError.httpError s1 b1))
          (Except.error (ReqError.httpError s2 b2)) =
        Except.ok ⟨0, 0, 0, 0⟩) ∧
    (∀ (vd cd : TrafficJson),
      get_traffic_data (Except.ok vd) (Except.ok cd) =
        Except.ok ⟨vd.count.getD 0, vd.uniques.getD 0, cd.count.getD 0, cd.uniques.getD 0⟩) ∧
    (∀ (e : Nat) (clones : Except ReqError TrafficJson),
      get_traffic_data (Except.error (ReqError.network e)) clones =
        Except.error (ReqError.network e)) ∧
    (∀ (t : Int) (clones : Except ReqError TrafficJson),
      get_traffic_data (Except.error (ReqError.rateLimit t)) clones =
        Except.error (ReqError.rateLimit t)) ∧
    (∀ (vd : TrafficJson) (e : Nat),
      get_traffic_data (Except.ok vd) (Except.error (ReqError.network e)) =
        Except.error (ReqError.network e)) ∧
    (∀ (vd : TrafficJson) (t : Int),
      get_traffic_data (Except.ok vd) (Except.error (ReqError.rateLimit t)) =
        Except.error (ReqError.rateLimit t)) ∧
    (∀ (s : Nat) (b : String) (e : Nat),
      get_traffic_data (Except.error (ReqError.httpError s b))
          (Except.error (ReqError.network e)) =
        Except.error (ReqError.network e)) ∧
    (∀ (s : Nat) (b : String) (t : Int),
      get_traffic_data (Except.error (ReqError.httpError s b))
          (Except.error (ReqError.rateLimit t)) =
        Except.error (ReqError.rateLimit t)) :=
  ⟨fun _ _ _ => rfl, fun _ _ _ => rfl, fun _ _ _ _ => rfl, fun _ _ => rfl,
   fun _ _ => rfl, fun _ _ => rfl, fun _ _ => rfl, fun _ _ => rfl,
   fun _ _ _ => rfl, fun _ _ _ => rfl⟩

/-- C6: `collect_all_metrics` runs the fetchers in the fixed order
basic → traffic → forks; on success it returns the record with the
timestamp, the repository identity `owner/repo`, all fetched fields
and `fork_count = len(fork_details)`; the first exception is re-raised
(after logging) and no partial record is returned — a failing fetcher
also cuts the sequence short, so the later fetchers never run. -/
theorem collect_all_metrics_order_and_record :
    (∀ (bm : BasicMetrics) (vd cd : TrafficJson) (fd : List ForkDetail) (o r ts : String),
      collect_all_metrics ⟨Except.ok bm, Except.ok vd, Except.ok cd, Except.ok fd⟩ o r ts =
        ([FetchStep.basicStep, FetchStep.trafficStep, FetchStep.forksStep],
         Except.ok ⟨ts, o ++ "/" ++ r,
                    bm.stars, bm.forks, bm.watchers, bm.open_issues, bm.last_updated,
                    vd.count.getD 0, vd.uniques.getD 0, cd.count.getD 0, cd.uniques.getD 0,
                    fd.length, fd⟩)) ∧
    (∀ (e : ReqError) (v cl : Except ReqError TrafficJson)
        (f : Except ReqError (List ForkDetail)) (o r ts : String),
      collect_all_metrics ⟨Except.error e, v, cl, f⟩ o r ts =
        ([FetchStep.basicStep], Except.error e)) ∧
    (∀ (bm : BasicMetrics) (e : Nat) (cl : Except ReqError TrafficJson)
        (f : Except ReqError (List ForkDetail)) (o r ts : String),
      collect_all_metrics ⟨Except.ok bm, Except.error (ReqError.network e), cl, f⟩ o r ts =
        ([FetchStep.basicStep, FetchStep.trafficStep], Except.error (ReqError.network e))) ∧
    (∀ (bm : BasicMetrics) (t : Int) (cl : Except ReqError TrafficJson)
        (f : Except ReqError (List ForkDetail)) (o r ts : String),
      collect_all_metrics ⟨Except.ok bm, Except.error (ReqError.rateLimit t), cl, f⟩ o r ts =
        ([FetchStep.basicStep, FetchStep.trafficStep], Except.error (ReqError.rateLimit t))) ∧
    (∀ (bm : BasicMetrics) (vd : TrafficJson) (e : Nat)
        (f : Except ReqError (List ForkDetail)) (o r ts : String),
      collect_all_metrics ⟨Except.ok bm, Except.ok vd,
          Except.error (ReqError.network e), f⟩ o r ts =
        ([FetchStep.basicStep, FetchStep.trafficStep], Except.error (ReqError.network e))) ∧
    (∀ (bm : BasicMetrics) (vd : TrafficJson) (t : Int)
        (f : Except ReqError (List ForkDetail)) (o r ts : String),
      collect_all_metrics ⟨Except.ok bm, Except.ok vd,
          Except.error (ReqError.rateLimit t), f⟩ o r ts =
        ([FetchStep.basicStep, FetchStep.trafficStep], Except.error (ReqError.rateLimit t))) ∧
    (∀ (bm : BasicMetrics) (vd cd : TrafficJson) (e : ReqError) (o r ts : String),
      collect_all_metrics ⟨Except.ok bm, Except.ok vd, Except.ok cd, Except.error e⟩ o r ts =
        ([FetchStep.basicStep, FetchStep.trafficStep, FetchStep.forksStep],
         Except.error e)) :=
  ⟨fun _ _ _ _ _ _ _ => rfl, fun _ _ _ _ _ _ _ => rfl, fun _ _ _ _ _ _ _ => rfl,
   fun _ _ _ _ _ _ _ => rfl, fun _ _ _ _ _ _ _ => rfl, fun _ _ _ _ _ _ _ => rfl,
   fun _ _ _ _ _ _ _ => rfl⟩

/-- C8: with the remote outcomes fixed, two runs of
`collect_all_metrics` differ at most in the clock reading stamped into
`timestamp`: after erasing that one field the results are equal, for
any two timestamps. -/
theorem collect_all_metrics_idempotent (env : CollectEnv) (owner repo t1 t2 : String) :
    Except.map clearTimestamp (collect_all_metrics env owner repo t1).2 =
      Except.map clearTimestamp (collect_all_metrics env owner repo t2).2 := by
  obtain ⟨b, v, cl, f⟩ := env
  cases b with
  | error e => rfl
  | ok bm =>
    cases htd : get_traffic_data v cl with
    | error e => simp [collect_all_metrics, htd]
    | ok td =>
      cases f with
      | error e => simp [collect_all_metrics, htd]
      | ok fd => simp [collect_all_metrics, htd, clearTimestamp, Except.map]

/-- Reading another reference after a heap write. -/
theorem heapRead_heapWrite_ne (h : Heap) (i j : Nat) (d : Dict) (hij : i ≠ j) :
    heapRead (heapWrite h i d) j = heapRead h j := by
  unfold heapRead heapWrite
  rw [List.getD_eq_getElem?_getD, List.getD_eq_getElem?_getD, List.getElem?_set_ne hij]

/-- Reading a live reference after an allocation. -/
theorem heapRead_append_lt (h : Heap) (d : Dict) (j : Nat) (hj : j < List.length h) :
    heapRead (h ++ [d]) j = heapRead h j := by
  unfold heapRead
  rw [List.getD_eq_getElem?_getD, List.getD_eq_getElem?_getD, List.getElem?_append_left hj]

/-- C10: `export_data` never mutates the caller's metrics dictionary:
for every live reference and every format, the dictionary it points to
(its `fork_details` entry included) is the same after the call,
because the CSV flattening of `fork_details` to a string is assigned
only into the freshly allocated `data.copy()`. -/
theorem export_data_preserves_input (h : Heap) (dataRef : Nat) (format : String)
    (href : dataRef < List.length h) :
    heapRead (export_data h dataRef format).1 dataRef = heapRead h dataRef := by
  by_cases hc : format.toLower = "csv"
  · simp only [export_data, heapAlloc, hc, if_true, eq_self_iff_true]
    rw [heapRead_heapWrite_ne _ _ _ _ (by omega)]
    exact heapRead_append_lt h _ dataRef href
  · simp only [export_data, heapAlloc, hc, if_false, apply_ite, ite_self]
    exact heapRead_append_lt h _ dataRef href

/-- Witness for C10: a one-dict heap whose dict holds a fork-detail
list, exported as CSV; the caller's dict is unchanged. -/
theorem export_data_preserves_input_witness :
    heapRead (export_data [[("fork_details", Value.forkList [⟨"o", "c", "u", 1⟩])]] 0 "csv").1 0 =
      [("fork_details", Value.forkList [⟨"o", "c", "u", 1⟩])] :=
  (export_data_preserves_input [[("fork_details", Value.forkList [⟨"o", "c", "u", 1⟩])]] 0 "csv"
    (by decide)).trans (by rfl)

end GithubMetrics
